import Mathlib

/-!
# Shallow embedding of the session-scoped video generation controller

This file embeds `src/content-pipeline/video_gen.py` (class `VideoGenerator`)
and the batch loop of `src/ContentCreator-0.1/src/main.py` (`generate_videos`)
into Lean 4, and settles the frozen claims about them.

Modelling conventions, stated once:

* Money is `Rat` (the Python floats involved — 0.50, multiples of 5.0, budget
  limits — are compared and added; the code never divides, and the check and
  the commit use the same expression, so exact arithmetic is faithful).
* External effects are oracle parameters per call, bundled in `GenEnv`:
  file existence at lookup time, the outcome of each production API attempt,
  and download success.
* `hashlib.md5(...).hexdigest()` is an uninterpreted parameter
  `md5hex : String → String`: every claim depends only on the hash being a
  function of its input string, never on concrete digest values.
* Python exceptions are values: `_check_budget` raising
  `BudgetExceededException`, which `generate_scene_video` catches at its own
  boundary, is embedded directly as the `none`-returning branch; construction
  errors are an explicit `InitResult`.
* The assets directory (`Path(__file__).parent.parent / "assets"`) is the
  fixed string `"assets"`; only equality and non-emptiness of paths matter.
* Wall-clock fields (`generation_time`) and log output are dropped: no claim
  mentions them.
-/

namespace NeonVideoGen

/-- The `Scene` pydantic model of `scene_parser.py`: id, title, characters
(defaulting to empty), setting, summary, tone. Length bounds are validation
concerns of the parser, not used by the generator. -/
structure Scene where
  id : Int
  title : String
  characters : List String
  setting : String
  summary : String
  tone : String
deriving DecidableEq, Repr

/-- `DEFAULT_DURATION = 10` (seconds), video_gen.py line 35. -/
def DEFAULT_DURATION : Nat := 10

/-- `MAX_RETRIES = 2`, video_gen.py line 37. -/
def MAX_RETRIES : Nat := 2

/-- `ESTIMATED_COST_PER_SECOND = 0.50`, video_gen.py line 43. -/
def ESTIMATED_COST_PER_SECOND : Rat := 1 / 2

/-- `MAX_BUDGET_PER_SESSION = 50.00`, video_gen.py line 44. -/
def MAX_BUDGET_PER_SESSION : Rat := 50

/-- `estimated_cost = DEFAULT_DURATION * ESTIMATED_COST_PER_SECOND`
as computed in `generate_scene_video` (line 302). Equals 5. -/
def estimated_cost : Rat := (DEFAULT_DURATION : Rat) * ESTIMATED_COST_PER_SECOND

/-- One entry of `self.generated_videos` (lines 335-341); the wall-clock
`generation_time` field is dropped (see module comment). -/
structure GenRecord where
  scene_id : Int
  path : String
  cost : Rat
  prompt_hash : String
deriving DecidableEq, Repr

/-- The mutable session state of one `VideoGenerator` instance
(`__init__`, lines 72-77). -/
structure VideoGenerator where
  dry_run : Bool
  simulate : Bool
  budget_limit : Rat
  session_cost : Rat
  generated_videos : List GenRecord
  cache : List (String × String)
deriving DecidableEq, Repr

/-- The state `__init__` establishes before `_init_fal_client` runs:
cost 0, no records, empty cache (lines 72-77). -/
def VideoGenerator.new (dry_run simulate : Bool) (budget_limit : Rat) :
    VideoGenerator :=
  { dry_run := dry_run, simulate := simulate, budget_limit := budget_limit,
    session_cost := 0, generated_videos := [], cache := [] }

/-- Result of `_init_fal_client` (lines 86-104): returns normally, or raises
a `VideoGenerationError` carrying a message. -/
inductive InitResult where
  | ok : InitResult
  | error (msg : String) : InitResult
deriving DecidableEq, Repr

/-- `_init_fal_client` (lines 86-104): dry-run or simulate mode returns at
once, before any credential lookup; otherwise a missing `fal_client` import,
then a missing `FAL_KEY` environment variable, each raise a
`VideoGenerationError`. -/
def init_fal_client (dry_run simulate fal_client_installed fal_key_present :
    Bool) : InitResult :=
  if dry_run || simulate then .ok
  else if !fal_client_installed then
    .error "fal_client not installed. Run: pip install fal"
  else if !fal_key_present then
    .error "FAL_KEY not found in environment variables"
  else .ok

/-- `VideoGenerator.__init__` (lines 60-84): set the session fields, then run
`_init_fal_client`, whose exception propagates out of construction. -/
def VideoGenerator.construct (dry_run simulate : Bool) (budget_limit : Rat)
    (fal_client_installed fal_key_present : Bool) :
    Except String VideoGenerator :=
  match init_fal_client dry_run simulate fal_client_installed fal_key_present
    with
  | .ok => .ok (VideoGenerator.new dry_run simulate budget_limit)
  | .error m => .error m

/-- `_build_video_prompt` (lines 110-150): fixed-order parts — title,
setting, characters (omitted when the list is empty), action, tone, four
fixed technical lines — joined with `". "`. The `image_path` argument is
accepted and never used. -/
def build_video_prompt (scene : Scene) (image_path : Option String) : String :=
  let prompt_parts := ["Scene: " ++ scene.title, "Setting: " ++ scene.setting]
  let prompt_parts := if scene.characters.isEmpty then prompt_parts
    else prompt_parts ++
      ["Characters: " ++ String.intercalate ", " scene.characters]
  let prompt_parts := prompt_parts ++
    ["Action: " ++ scene.summary, "Tone: " ++ scene.tone]
  let prompt_parts := prompt_parts ++
    ["Style: Cinematic, high quality, professional lighting",
     "Camera: Dynamic cinematography with smooth movements",
     "Duration: 8-12 seconds",
     "Quality: 1080p resolution, 24fps"]
  String.intercalate ". " prompt_parts

/-- `_generate_prompt_hash` (lines 106-108): md5 hexdigest truncated to 12
characters; the digest function is the uninterpreted `md5hex` parameter. -/
def generate_prompt_hash (md5hex : String → String) (prompt : String) :
    String :=
  (md5hex prompt).take 12

/-- The outcome of one production attempt of `fal_client.subscribe`
(lines 248-253): an exception, or a returned value with its truthiness, the
presence of the `"video"` key, and the nested `"url"` value. -/
inductive AttemptOutcome where
  | exn : AttemptOutcome
  | response (truthy hasVideo : Bool) (url : Option String) : AttemptOutcome

/-- An attempt that does not produce an accepted result: an exception, or a
response failing the `result and "video" in result` test of line 255. -/
def attemptFails : AttemptOutcome → Bool
  | .exn => true
  | .response truthy hasVideo _ => !(truthy && hasVideo)

/-- Oracle for the external world during one `generate_scene_video` call:
file existence at lookup time, production API attempt outcomes (indexed by
attempt number), and download success. -/
structure GenEnv where
  fileExists : String → Bool
  outcomes : Nat → AttemptOutcome
  downloadOk : Bool

/-- The retry loop of `_call_fal_api` (lines 242-274), production mode.
`fuel` is the number of loop iterations left (initially `MAX_RETRIES + 1`),
`attempt` the current index. Returns the accepted result (its `"url"` field)
or `none`, paired with the number of attempts actually performed. An
accepted response (truthy, `"video"` key present) returns at once; an
invalid response falls to the next iteration; an exception sleeps and
retries while attempts remain, else breaks — both exhaust into `none`. -/
def callFalApiLoop (outcomes : Nat → AttemptOutcome) :
    Nat → Nat → Option (Option String) × Nat
  | _, 0 => (none, 0)
  | attempt, fuel + 1 =>
    match outcomes attempt with
    | .response truthy hasVideo url =>
      if truthy && hasVideo then (some url, 1)
      else
        let r := callFalApiLoop outcomes (attempt + 1) fuel
        (r.1, r.2 + 1)
    | .exn =>
        let r := callFalApiLoop outcomes (attempt + 1) fuel
        (r.1, r.2 + 1)

/-- `_call_fal_api` (lines 199-274): dry-run returns the mock result with no
attempt; simulate sleeps and returns its mock with no attempt; production
runs the retry loop. The pair also carries the production attempt count. -/
def call_fal_api (dry_run simulate : Bool)
    (outcomes : Nat → AttemptOutcome) : Option (Option String) × Nat :=
  if dry_run then (some (some "https://example.com/mock_video.mp4"), 0)
  else if simulate then
    (some (some "https://example.com/simulated_video.mp4"), 0)
  else callFalApiLoop outcomes 0 (MAX_RETRIES + 1)

/-- The cache association: Python dict assignment shadows, so `store` conses
and `lookup` takes the most recent binding. -/
def cacheLookup : List (String × String) → String → Option String
  | [], _ => none
  | (k, v) :: rest, key => if k = key then some v else cacheLookup rest key

/-- The cache-check step of `generate_scene_video` (lines 294-299): a stored
path is served only when it still exists on disk; a stale entry falls
through as a miss. -/
def cache_hit (env : GenEnv) (cache : List (String × String)) (ph : String) :
    Option String :=
  match cacheLookup cache ph with
  | some cachedPath => if env.fileExists cachedPath then some cachedPath
    else none
  | none => none

/-- `f"scene_{scene.id}.mp4"` under the assets directory (lines 306-307). -/
def outputPathFor (sceneId : Int) : String :=
  "assets" ++ "/scene_" ++ toString sceneId ++ ".mp4"

/-- The fingerprint `generate_scene_video` computes for a scene and optional
reference image (lines 291-292): the hash of the built prompt. -/
def fingerprintOf (md5hex : String → String) (scene : Scene)
    (image_path : Option String) : String :=
  generate_prompt_hash md5hex (build_video_prompt scene image_path)

/-- What one `generate_scene_video` call produced: the returned
`Optional[str]`, the state after the call, whether `_call_fal_api` was
entered at all, and how many production API attempts it performed. -/
structure GenOutcome where
  result : Option String
  state : VideoGenerator
  apiInvoked : Bool
  apiAttempts : Nat
deriving DecidableEq, Repr

/-- `generate_scene_video` (lines 276-361): build prompt and fingerprint;
serve a cache hit whose file exists; check the budget (the raised
`BudgetExceededException` is caught at line 353 and becomes `none` with the
state untouched); call the API; reject a missing result or missing url; in
production download (failure returns `none`), in dry-run or simulate write
the mock file; then commit cost, record and cache entry together
(`actual_cost = estimated_cost`, line 332, is inlined). -/
def generate_scene_video (md5hex : String → String) (env : GenEnv)
    (st : VideoGenerator) (scene : Scene) (image_path : Option String) :
    GenOutcome :=
  match cache_hit env st.cache (fingerprintOf md5hex scene image_path) with
  | some cachedPath => ⟨some cachedPath, st, false, 0⟩
  | none =>
    if st.session_cost + estimated_cost > st.budget_limit then
      ⟨none, st, false, 0⟩
    else
      match call_fal_api st.dry_run st.simulate env.outcomes with
      | (none, n) => ⟨none, st, true, n⟩
      | (some none, n) => ⟨none, st, true, n⟩
      | (some (some _url), n) =>
        if !st.dry_run && !st.simulate && !env.downloadOk then
          ⟨none, st, true, n⟩
        else
          ⟨some (outputPathFor scene.id),
           { st with
             session_cost := st.session_cost + estimated_cost,
             generated_videos := st.generated_videos ++
               [⟨scene.id, outputPathFor scene.id, estimated_cost,
                 fingerprintOf md5hex scene image_path⟩],
             cache := (fingerprintOf md5hex scene image_path,
               outputPathFor scene.id) :: st.cache },
           true, n⟩

/-- The per-scene loop of `generate_videos` in main.py (lines 496-560), in
its default configuration (`skip_existing` and `use_images` both false, so
no scene is skipped and `image_path` is `None`). Before each scene the
summary is read and `budget_remaining <= 0` breaks out of the whole loop;
otherwise the scene is generated (the surrounding try/except is vacuous in
the embedding, since `generate_scene_video` is total) and its id and result
are recorded; scenes after a break never appear in the results. `envs k`
supplies the oracle for the k-th processed scene. -/
def generate_videos_loop (md5hex : String → String) (envs : Nat → GenEnv) :
    Nat → VideoGenerator → List Scene →
    List (Int × Option String) × VideoGenerator
  | _, st, [] => ([], st)
  | k, st, scene :: rest =>
    if st.budget_limit - st.session_cost ≤ 0 then ([], st)
    else
      ((scene.id,
          (generate_scene_video md5hex (envs k) st scene none).result) ::
        (generate_videos_loop md5hex envs (k + 1)
          (generate_scene_video md5hex (envs k) st scene none).state rest).1,
       (generate_videos_loop md5hex envs (k + 1)
         (generate_scene_video md5hex (envs k) st scene none).state rest).2)

/-- Run a sequence of `generate_scene_video` calls, each with its own oracle,
scene and reference image, threading the session state. -/
def runCalls (md5hex : String → String) (st : VideoGenerator)
    (calls : List (GenEnv × Scene × Option String)) : VideoGenerator :=
  calls.foldl
    (fun s c => (generate_scene_video md5hex c.1 s c.2.1 c.2.2).state) st

/-- The test scene of video_gen.py lines 401-408, used for concrete runs. -/
def testScene : Scene :=
  { id := 1, title := "Forest Encounter",
    characters := ["Lena", "Mysterious Stranger"],
    setting := "Dark forest with ancient oak trees",
    summary := "Lena walks through the forest and meets a cloaked stranger who speaks in riddles",
    tone := "mysterious, suspenseful" }

/-- Concrete stand-in for the md5 hexdigest in closed runs (any function of
the input string exercises the same control flow). -/
def mdStub : String → String := fun s => s

/-- Oracle for runs where no file exists and every production attempt raises. -/
def noFileEnv : GenEnv :=
  { fileExists := fun _ => false, outcomes := fun _ => .exn,
    downloadOk := true }

/-- Oracle for runs where every file exists at lookup time. -/
def allFilesEnv : GenEnv :=
  { fileExists := fun _ => true, outcomes := fun _ => .exn,
    downloadOk := true }

/-! ## Helper lemmas -/

/-- Flags and ceiling survive any single call: `generate_scene_video` never
writes `dry_run`, `simulate` or `budget_limit`. -/
theorem gen_preserves_config (md5hex : String → String) (env : GenEnv)
    (st : VideoGenerator) (scene : Scene) (image_path : Option String) :
    (generate_scene_video md5hex env st scene image_path).state.budget_limit
      = st.budget_limit ∧
    (generate_scene_video md5hex env st scene image_path).state.dry_run
      = st.dry_run ∧
    (generate_scene_video md5hex env st scene image_path).state.simulate
      = st.simulate := by
  unfold generate_scene_video
  split
  · exact ⟨rfl, rfl, rfl⟩
  · split
    · exact ⟨rfl, rfl, rfl⟩
    · split
      · exact ⟨rfl, rfl, rfl⟩
      · exact ⟨rfl, rfl, rfl⟩
      · split
        · exact ⟨rfl, rfl, rfl⟩
        · exact ⟨rfl, rfl, rfl⟩

/-- One call either leaves the cumulative cost alone, or — only when the
budget check passed — adds exactly the estimated cost. -/
theorem gen_session_cost_cases (md5hex : String → String) (env : GenEnv)
    (st : VideoGenerator) (scene : Scene) (image_path : Option String) :
    (generate_scene_video md5hex env st scene image_path).state.session_cost
        = st.session_cost ∨
      (st.session_cost + estimated_cost ≤ st.budget_limit ∧
        (generate_scene_video md5hex env st scene
          image_path).state.session_cost
          = st.session_cost + estimated_cost) := by
  unfold generate_scene_video
  split
  · exact Or.inl rfl
  · split
    · exact Or.inl rfl
    · rename_i hle
      split
      · exact Or.inl rfl
      · exact Or.inl rfl
      · split
        · exact Or.inl rfl
        · exact Or.inr ⟨le_of_not_lt hle, rfl⟩

/-- A single call keeps the session under its ceiling. -/
theorem gen_budget_invariant_step (md5hex : String → String) (env : GenEnv)
    (st : VideoGenerator) (scene : Scene) (image_path : Option String)
    (h : st.session_cost ≤ st.budget_limit) :
    (generate_scene_video md5hex env st scene image_path).state.session_cost
      ≤ (generate_scene_video md5hex env st scene
          image_path).state.budget_limit := by
  rw [(gen_preserves_config md5hex env st scene image_path).1]
  rcases gen_session_cost_cases md5hex env st scene image_path with hc | hc
  · rw [hc]; exact h
  · rw [hc.2]; exact hc.1

/-- A successful call leaves the returned path stored in the cache under the
fingerprint of the request. -/
theorem gen_result_cached (md5hex : String → String) (env : GenEnv)
    (st : VideoGenerator) (scene : Scene) (image_path : Option String)
    (p : String)
    (h : (generate_scene_video md5hex env st scene image_path).result
      = some p) :
    cacheLookup
      (generate_scene_video md5hex env st scene image_path).state.cache
      (fingerprintOf md5hex scene image_path) = some p := by
  revert h
  unfold generate_scene_video
  split
  · rename_i cachedPath hhit
    intro h
    simp only [Option.some.injEq] at h
    simp only [cache_hit] at hhit
    split at hhit
    · rename_i path' hlk
      split at hhit
      · simp only [Option.some.injEq] at hhit
        simp only [hlk, hhit, h]
      · exact absurd hhit (by simp)
    · exact absurd hhit (by simp)
  · split
    · intro h; simp at h
    · split
      · intro h; simp at h
      · intro h; simp at h
      · split
        · intro h; simp at h
        · intro h
          simp only [Option.some.injEq] at h
          simp [cacheLookup, h]

/-- A stored path that still exists is served by the cache check. -/
theorem cache_hit_of_lookup (env : GenEnv) (cache : List (String × String))
    (ph p : String) (hlk : cacheLookup cache ph = some p)
    (hex : env.fileExists p = true) : cache_hit env cache ph = some p := by
  simp [cache_hit, hlk, hex]

/-- A stored path whose file is gone falls through as a miss. -/
theorem cache_miss_of_stale (env : GenEnv) (cache : List (String × String))
    (ph p : String) (hlk : cacheLookup cache ph = some p)
    (hex : env.fileExists p = false) : cache_hit env cache ph = none := by
  simp [cache_hit, hlk, hex]

/-- On a fresh cache hit the call returns the cached path at once: state
untouched, `_call_fal_api` never entered. -/
theorem gen_of_cache_hit (md5hex : String → String) (env : GenEnv)
    (st : VideoGenerator) (scene : Scene) (image_path : Option String)
    (p : String)
    (hhit : cache_hit env st.cache (fingerprintOf md5hex scene image_path)
      = some p) :
    generate_scene_video md5hex env st scene image_path
      = ⟨some p, st, false, 0⟩ := by
  unfold generate_scene_video
  rw [hhit]

/-- On a cache miss that passes the budget check, the external call step is
reached, whatever its outcome. -/
theorem gen_apiInvoked_of_miss (md5hex : String → String) (env : GenEnv)
    (st : VideoGenerator) (scene : Scene) (image_path : Option String)
    (hhit : cache_hit env st.cache (fingerprintOf md5hex scene image_path)
      = none)
    (hb : st.session_cost + estimated_cost ≤ st.budget_limit) :
    (generate_scene_video md5hex env st scene image_path).apiInvoked
      = true := by
  unfold generate_scene_video
  simp only [hhit]
  rw [if_neg (not_lt.mpr hb)]
  split
  · rfl
  · rfl
  · split
    · rfl
    · rfl

/-- The ceiling is unchanged across any sequence of calls. -/
theorem runCalls_budget_limit (md5hex : String → String)
    (calls : List (GenEnv × Scene × Option String)) :
    ∀ st : VideoGenerator,
      (runCalls md5hex st calls).budget_limit = st.budget_limit := by
  induction calls with
  | nil => intro st; rfl
  | cons c rest ih =>
    intro st
    have hstep := (gen_preserves_config md5hex c.1 st c.2.1 c.2.2).1
    calc (runCalls md5hex st (c :: rest)).budget_limit
        = (generate_scene_video md5hex c.1 st c.2.1 c.2.2).state.budget_limit
          := ih _
      _ = st.budget_limit := hstep

/-- The budget invariant is preserved across any sequence of calls. -/
theorem runCalls_invariant (md5hex : String → String)
    (calls : List (GenEnv × Scene × Option String)) :
    ∀ st : VideoGenerator, st.session_cost ≤ st.budget_limit →
      (runCalls md5hex st calls).session_cost
        ≤ (runCalls md5hex st calls).budget_limit := by
  induction calls with
  | nil => intro st h; exact h
  | cons c rest ih =>
    intro st h
    refine ih _ ?_
    exact gen_budget_invariant_step md5hex c.1 st c.2.1 c.2.2 h

/-- The retry loop of `_call_fal_api`, when every attempt fails, runs through
all of its fuel and returns `none` with that many attempts performed. -/
theorem callFalApiLoop_all_fail (outcomes : Nat → AttemptOutcome)
    (hf : ∀ i, attemptFails (outcomes i) = true) :
    ∀ fuel attempt, callFalApiLoop outcomes attempt fuel = (none, fuel) := by
  intro fuel
  induction fuel with
  | zero => intro attempt; rfl
  | succ f ih =>
    intro attempt
    unfold callFalApiLoop
    cases ho : outcomes attempt with
    | exn => simp [ih]
    | response t h u =>
      have hfa := hf attempt
      rw [ho] at hfa
      cases t with
      | false => simp [ih]
      | true =>
        cases h with
        | false => simp [ih]
        | true => simp [attemptFails] at hfa

/-! ## Claims -/

/-- C4: the prompt built by `_build_video_prompt` and its 12-character
fingerprint are functions of the scene alone: the optional reference-image
path never enters the prompt text, so any two image arguments yield
byte-identical prompts and identical fingerprints. Determinism is immediate
since both are pure functions of their arguments. -/
theorem C4_prompt_and_fingerprint_ignore_image (md5hex : String → String)
    (scene : Scene) (p1 p2 : Option String) :
    build_video_prompt scene p1 = build_video_prompt scene p2 ∧
    generate_prompt_hash md5hex (build_video_prompt scene p1)
      = generate_prompt_hash md5hex (build_video_prompt scene p2) := by
  exact ⟨rfl, rfl⟩

/-- C5: a fresh dry-run generator with budget 10.0, generating one scene at
the default duration (10 s) and rate 0.50/s, returns a non-empty path,
leaves `session_cost` at 5.0, and appends exactly one record. -/
theorem C5_dry_run_scenario_a :
    estimated_cost = 5 ∧
    (generate_scene_video mdStub noFileEnv (VideoGenerator.new true false 10)
      testScene none).result = some (outputPathFor 1) ∧
    outputPathFor 1 ≠ "" ∧
    (generate_scene_video mdStub noFileEnv (VideoGenerator.new true false 10)
      testScene none).state.session_cost = 5 ∧
    (generate_scene_video mdStub noFileEnv (VideoGenerator.new true false 10)
      testScene none).state.generated_videos.length = 1 := by
  refine ⟨?_, ?_, by decide, ?_, ?_⟩ <;>
    norm_num [generate_scene_video, cache_hit, cacheLookup, call_fal_api,
      estimated_cost, DEFAULT_DURATION, ESTIMATED_COST_PER_SECOND,
      VideoGenerator.new, testScene, outputPathFor]

/-- C1 counterexample: the claim as stated is false, because the cache check
precedes the budget check. Dry-run, budget 5.0: the first generation
succeeds and charges 5.0; the second request for the same scene, with the
artifact still on disk, has estimated cost 5.0 over the exhausted ceiling,
yet returns the cached path rather than `none`. -/
theorem C1_budget_counterexample :
    (generate_scene_video mdStub noFileEnv (VideoGenerator.new true false 5)
        testScene none).state.session_cost + estimated_cost >
      (generate_scene_video mdStub noFileEnv (VideoGenerator.new true false 5)
        testScene none).state.budget_limit ∧
    (generate_scene_video mdStub allFilesEnv
      (generate_scene_video mdStub noFileEnv (VideoGenerator.new true false 5)
        testScene none).state testScene none).result
      = some (outputPathFor 1) := by
  constructor <;>
    norm_num [generate_scene_video, cache_hit, cacheLookup, call_fal_api,
      estimated_cost, DEFAULT_DURATION, ESTIMATED_COST_PER_SECOND,
      VideoGenerator.new, testScene, outputPathFor, allFilesEnv, noFileEnv]

/-- C1 (amended): with a nonnegative ceiling, the cumulative session cost
never exceeds the budget limit across any sequence of calls; and the first
request that is not served from the cache and whose estimated cost added to
the current session cost would exceed the ceiling returns `none` and leaves
the whole state — in particular `session_cost` — unchanged. -/
theorem C1_budget_ceiling (md5hex : String → String) :
    (∀ (dr sim : Bool) (L : Rat), 0 ≤ L →
      ∀ calls : List (GenEnv × Scene × Option String),
        (runCalls md5hex (VideoGenerator.new dr sim L) calls).session_cost
          ≤ L) ∧
    (∀ (env : GenEnv) (st : VideoGenerator) (scene : Scene)
        (img : Option String),
      cache_hit env st.cache (fingerprintOf md5hex scene img) = none →
      st.session_cost + estimated_cost > st.budget_limit →
      generate_scene_video md5hex env st scene img = ⟨none, st, false, 0⟩) := by
  constructor
  · intro dr sim L hL calls
    have h := runCalls_invariant md5hex calls (VideoGenerator.new dr sim L) hL
    rwa [runCalls_budget_limit md5hex calls (VideoGenerator.new dr sim L)]
      at h
  · intro env st scene img hhit hgt
    unfold generate_scene_video
    rw [hhit, if_pos hgt]

/-- C1 witness: budget 10.0 over the empty sequence stays within the
ceiling; and a fresh generator with budget 1.0 refuses its first request
(estimate 5.0) with `none` and an unchanged state. -/
theorem C1_budget_ceiling_witness :
    (runCalls mdStub (VideoGenerator.new true false 10) []).session_cost
      ≤ 10 ∧
    generate_scene_video mdStub noFileEnv (VideoGenerator.new true false 1)
      testScene none = ⟨none, VideoGenerator.new true false 1, false, 0⟩ := by
  constructor
  · exact (C1_budget_ceiling mdStub).1 true false 10 (by norm_num) []
  · exact (C1_budget_ceiling mdStub).2 noFileEnv
      (VideoGenerator.new true false 1) testScene none rfl
      (by norm_num [VideoGenerator.new, estimated_cost, DEFAULT_DURATION,
        ESTIMATED_COST_PER_SECOND])

/-- C2: after a successful generation returning path `p`, a second request
for the same scene and image serves the cache: if `p` still exists at lookup
time it is returned at once with the state untouched and the API step never
entered; if `p` was deleted in between, the stale entry is treated as a miss
and (when the budget allows) the API step is entered again. -/
theorem C2_cache_existence (md5hex : String → String) (env1 env2 : GenEnv)
    (st : VideoGenerator) (scene : Scene) (img : Option String) (p : String)
    (h1 : (generate_scene_video md5hex env1 st scene img).result = some p) :
    (env2.fileExists p = true →
      generate_scene_video md5hex env2
        (generate_scene_video md5hex env1 st scene img).state scene img
        = ⟨some p, (generate_scene_video md5hex env1 st scene img).state,
            false, 0⟩) ∧
    (env2.fileExists p = false →
      (generate_scene_video md5hex env1 st scene img).state.session_cost
          + estimated_cost
        ≤ (generate_scene_video md5hex env1 st scene img).state.budget_limit →
      (generate_scene_video md5hex env2
        (generate_scene_video md5hex env1 st scene img).state scene
        img).apiInvoked = true) := by
  have hc := gen_result_cached md5hex env1 st scene img p h1
  constructor
  · intro hex
    exact gen_of_cache_hit md5hex env2 _ scene img p
      (cache_hit_of_lookup env2 _ _ p hc hex)
  · intro hex hb
    exact gen_apiInvoked_of_miss md5hex env2 _ scene img
      (cache_miss_of_stale env2 _ _ p hc hex) hb

/-- C2 witness: a dry-run generation followed by a second call with the mock
file still present returns the same path with nothing recomputed; with the
file deleted instead, the second call reaches the API step again. -/
theorem C2_cache_existence_witness :
    (generate_scene_video mdStub allFilesEnv
      (generate_scene_video mdStub noFileEnv (VideoGenerator.new true false 10)
        testScene none).state testScene none
      = ⟨some (outputPathFor 1),
          (generate_scene_video mdStub noFileEnv
            (VideoGenerator.new true false 10) testScene none).state,
          false, 0⟩) ∧
    (generate_scene_video mdStub noFileEnv
      (generate_scene_video mdStub noFileEnv (VideoGenerator.new true false 10)
        testScene none).state testScene none).apiInvoked = true := by
  have hres : (generate_scene_video mdStub noFileEnv
      (VideoGenerator.new true false 10) testScene none).result
      = some (outputPathFor 1) := by
    norm_num [generate_scene_video, cache_hit, cacheLookup, call_fal_api,
      estimated_cost, DEFAULT_DURATION, ESTIMATED_COST_PER_SECOND,
      VideoGenerator.new, testScene, outputPathFor, noFileEnv]
  constructor
  · exact (C2_cache_existence mdStub noFileEnv allFilesEnv
      (VideoGenerator.new true false 10) testScene none (outputPathFor 1)
      hres).1 rfl
  · refine (C2_cache_existence mdStub noFileEnv noFileEnv
      (VideoGenerator.new true false 10) testScene none (outputPathFor 1)
      hres).2 rfl ?_
    norm_num [generate_scene_video, cache_hit, cacheLookup, call_fal_api,
      estimated_cost, DEFAULT_DURATION, ESTIMATED_COST_PER_SECOND,
      VideoGenerator.new, testScene, outputPathFor, noFileEnv]

/-- C3: in production mode (neither dry-run nor simulate), a request that
fails on every attempt — exception or response without the video field —
performs exactly `MAX_RETRIES + 1 = 3` API attempts and returns `none` with
the state unchanged. -/
theorem C3_retry_bound (md5hex : String → String) (env : GenEnv)
    (st : VideoGenerator) (scene : Scene) (img : Option String)
    (hdr : st.dry_run = false) (hsim : st.simulate = false)
    (hf : ∀ i, attemptFails (env.outcomes i) = true)
    (hhit : cache_hit env st.cache (fingerprintOf md5hex scene img) = none)
    (hb : st.session_cost + estimated_cost ≤ st.budget_limit) :
    MAX_RETRIES + 1 = 3 ∧
    generate_scene_video md5hex env st scene img
      = ⟨none, st, true, MAX_RETRIES + 1⟩ := by
  refine ⟨rfl, ?_⟩
  have hapi : call_fal_api st.dry_run st.simulate env.outcomes
      = (none, MAX_RETRIES + 1) := by
    rw [hdr, hsim]
    unfold call_fal_api
    simpa using callFalApiLoop_all_fail env.outcomes hf (MAX_RETRIES + 1) 0
  unfold generate_scene_video
  rw [hhit, if_neg (not_lt.mpr hb), hapi]

/-- C3 witness: a fresh production-mode generator whose every attempt raises
performs 3 attempts and produces nothing. -/
theorem C3_retry_bound_witness :
    generate_scene_video mdStub noFileEnv (VideoGenerator.new false false 10)
      testScene none
      = ⟨none, VideoGenerator.new false false 10, true, MAX_RETRIES + 1⟩ := by
  exact (C3_retry_bound mdStub noFileEnv (VideoGenerator.new false false 10)
    testScene none rfl rfl (fun i => rfl) rfl
    (by norm_num [VideoGenerator.new, estimated_cost, DEFAULT_DURATION,
      ESTIMATED_COST_PER_SECOND])).2

/-- C6 counterexample: the claim as stated is false — a successful dry-run
generation does charge the session. A fresh dry-run generator at the default
ceiling (50.0) generates one scene and its cumulative cost is no longer 0. -/
theorem C6_dry_run_cost_counterexample :
    (generate_scene_video mdStub noFileEnv
      (VideoGenerator.new true false MAX_BUDGET_PER_SESSION) testScene
      none).result = some (outputPathFor 1) ∧
    (generate_scene_video mdStub noFileEnv
      (VideoGenerator.new true false MAX_BUDGET_PER_SESSION) testScene
      none).state.session_cost ≠ 0 := by
  constructor <;>
    norm_num [generate_scene_video, cache_hit, cacheLookup, call_fal_api,
      estimated_cost, DEFAULT_DURATION, ESTIMATED_COST_PER_SECOND,
      MAX_BUDGET_PER_SESSION, VideoGenerator.new, testScene, outputPathFor,
      noFileEnv]

/-- C6 (amended): in dry-run mode a generation fabricates its result with no
network activity (zero API attempts), but the estimated cost is charged all
the same: a dry-run generation that is not served from the cache and passes
the budget check succeeds and increases `session_cost` by exactly the
estimated cost (5.0). -/
theorem C6_dry_run_charges (md5hex : String → String) (env : GenEnv)
    (st : VideoGenerator) (scene : Scene) (img : Option String)
    (hdr : st.dry_run = true)
    (hhit : cache_hit env st.cache (fingerprintOf md5hex scene img) = none)
    (hb : st.session_cost + estimated_cost ≤ st.budget_limit) :
    (generate_scene_video md5hex env st scene img).result
      = some (outputPathFor scene.id) ∧
    (generate_scene_video md5hex env st scene img).state.session_cost
      = st.session_cost + estimated_cost ∧
    (generate_scene_video md5hex env st scene img).apiAttempts = 0 := by
  have hapi : call_fal_api st.dry_run st.simulate env.outcomes
      = (some (some "https://example.com/mock_video.mp4"), 0) := by
    rw [hdr]; rfl
  unfold generate_scene_video
  simp only [hhit]
  rw [if_neg (not_lt.mpr hb), hapi]
  simp [hdr]

/-- C6 witness: a fresh dry-run generator with budget 20.0 charges exactly
the estimate for its first generation, with zero API attempts. -/
theorem C6_dry_run_charges_witness :
    (generate_scene_video mdStub noFileEnv (VideoGenerator.new true false 20)
      testScene none).result = some (outputPathFor testScene.id) ∧
    (generate_scene_video mdStub noFileEnv (VideoGenerator.new true false 20)
      testScene none).state.session_cost
      = (VideoGenerator.new true false 20).session_cost + estimated_cost ∧
    (generate_scene_video mdStub noFileEnv (VideoGenerator.new true false 20)
      testScene none).apiAttempts = 0 := by
  exact C6_dry_run_charges mdStub noFileEnv (VideoGenerator.new true false 20)
    testScene none rfl rfl
    (by norm_num [VideoGenerator.new, estimated_cost, DEFAULT_DURATION,
      ESTIMATED_COST_PER_SECOND])

/-- C7: in the batch loop, budget exhaustion (`budget_remaining <= 0` read
from the session summary before a scene) breaks out of the whole loop — no
further scene is attempted and no further result is recorded; whereas with
budget remaining, the loop always records the scene and continues with the
rest, whatever the per-scene result was, so individual non-budget failures
never halt the batch. -/
theorem C7_budget_exhaustion_halts (md5hex : String → String)
    (envs : Nat → GenEnv) :
    (∀ (k : Nat) (st : VideoGenerator) (scenes : List Scene),
      st.budget_limit - st.session_cost ≤ 0 →
      generate_videos_loop md5hex envs k st scenes = ([], st)) ∧
    (∀ (k : Nat) (st : VideoGenerator) (scene : Scene) (rest : List Scene),
      0 < st.budget_limit - st.session_cost →
      generate_videos_loop md5hex envs k st (scene :: rest)
        = ((scene.id,
              (generate_scene_video md5hex (envs k) st scene none).result) ::
            (generate_videos_loop md5hex envs (k + 1)
              (generate_scene_video md5hex (envs k) st scene none).state
              rest).1,
           (generate_videos_loop md5hex envs (k + 1)
             (generate_scene_video md5hex (envs k) st scene none).state
             rest).2)) := by
  constructor
  · intro k st scenes h
    cases scenes with
    | nil => rfl
    | cons scene rest =>
      unfold generate_videos_loop
      rw [if_pos h]
  · intro k st scene rest h
    rw [generate_videos_loop.eq_2, if_neg (not_le.mpr h)]

/-- C7 witness: after one dry-run generation exhausts a 5.0 budget, a batch
over one more scene processes nothing and leaves the state alone. -/
theorem C7_budget_exhaustion_halts_witness :
    generate_videos_loop mdStub (fun _ => noFileEnv) 0
      (generate_scene_video mdStub noFileEnv (VideoGenerator.new true false 5)
        testScene none).state [testScene]
      = ([], (generate_scene_video mdStub noFileEnv
          (VideoGenerator.new true false 5) testScene none).state) := by
  refine (C7_budget_exhaustion_halts mdStub (fun _ => noFileEnv)).1 0 _
    [testScene] ?_
  norm_num [generate_scene_video, cache_hit, cacheLookup, call_fal_api,
    estimated_cost, DEFAULT_DURATION, ESTIMATED_COST_PER_SECOND,
    VideoGenerator.new, testScene, noFileEnv]

/-- C8: every failure mode of `generate_scene_video` resolves to an empty
result rather than escaping the boundary — the raised budget exception is
caught in the method itself, an API failure after retries, a response
without a video URL, and a production download failure each yield `none`
(the embedding is a total function: the outer `except Exception` of lines
357-361 means no exception ever propagates to the caller). -/
theorem C8_failures_resolve_to_none (md5hex : String → String) (env : GenEnv)
    (st : VideoGenerator) (scene : Scene) (img : Option String) :
    (cache_hit env st.cache (fingerprintOf md5hex scene img) = none →
      st.session_cost + estimated_cost > st.budget_limit →
      (generate_scene_video md5hex env st scene img).result = none) ∧
    (cache_hit env st.cache (fingerprintOf md5hex scene img) = none →
      ¬st.session_cost + estimated_cost > st.budget_limit →
      (call_fal_api st.dry_run st.simulate env.outcomes).1 = none →
      (generate_scene_video md5hex env st scene img).result = none) ∧
    (cache_hit env st.cache (fingerprintOf md5hex scene img) = none →
      ¬st.session_cost + estimated_cost > st.budget_limit →
      (call_fal_api st.dry_run st.simulate env.outcomes).1 = some none →
      (generate_scene_video md5hex env st scene img).result = none) ∧
    (∀ u : String,
      cache_hit env st.cache (fingerprintOf md5hex scene img) = none →
      ¬st.session_cost + estimated_cost > st.budget_limit →
      (call_fal_api st.dry_run st.simulate env.outcomes).1 = some (some u) →
      st.dry_run = false → st.simulate = false → env.downloadOk = false →
      (generate_scene_video md5hex env st scene img).result = none) := by
  refine ⟨?_, ?_, ?_, ?_⟩
  · intro hhit hgt
    unfold generate_scene_video
    simp only [hhit]
    rw [if_pos hgt]
  · intro hhit hnb hapi
    unfold generate_scene_video
    simp only [hhit]
    rw [if_neg hnb]
    rcases hpair : call_fal_api st.dry_run st.simulate env.outcomes
      with ⟨r, n⟩
    rw [hpair] at hapi
    have hr : r = none := hapi
    rw [hr]
  · intro hhit hnb hapi
    unfold generate_scene_video
    simp only [hhit]
    rw [if_neg hnb]
    rcases hpair : call_fal_api st.dry_run st.simulate env.outcomes
      with ⟨r, n⟩
    rw [hpair] at hapi
    have hr : r = some none := hapi
    rw [hr]
  · intro u hhit hnb hapi hdr hsim hdl
    unfold generate_scene_video
    simp only [hhit]
    rw [if_neg hnb]
    rcases hpair : call_fal_api st.dry_run st.simulate env.outcomes
      with ⟨r, n⟩
    rw [hpair] at hapi
    have hr : r = some (some u) := hapi
    rw [hr]
    simp [hdr, hsim, hdl]

/-- C8 witness: a fresh simulate-mode generator with budget 1.0 has its
first request refused by the budget check and resolved to `none`. -/
theorem C8_failures_resolve_to_none_witness :
    (generate_scene_video mdStub noFileEnv (VideoGenerator.new false true 1)
      testScene none).result = none := by
  refine (C8_failures_resolve_to_none mdStub noFileEnv
    (VideoGenerator.new false true 1) testScene none).1 rfl ?_
  norm_num [VideoGenerator.new, estimated_cost, DEFAULT_DURATION,
    ESTIMATED_COST_PER_SECOND]

/-- C9: constructing in dry-run or simulate mode succeeds for every
credential configuration — `_init_fal_client` returns before any check — and
in production mode, a missing `FAL_KEY` makes construction fail at once with
a typed `VideoGenerationError`, whether or not the client library is
installed. -/
theorem C9_credential_requirement :
    (∀ (dr sim fc fk : Bool) (L : Rat), (dr || sim) = true →
      VideoGenerator.construct dr sim L fc fk
        = .ok (VideoGenerator.new dr sim L)) ∧
    (∀ (fc : Bool) (L : Rat), ∃ msg,
      VideoGenerator.construct false false L fc false = .error msg) := by
  constructor
  · intro dr sim fc fk L h
    simp [VideoGenerator.construct, init_fal_client, h]
  · intro fc L
    cases fc
    · exact ⟨_, rfl⟩
    · exact ⟨_, rfl⟩

/-- C9 witness: dry-run construction succeeds with no client library and no
key; production construction with the library but no key fails. -/
theorem C9_credential_requirement_witness :
    VideoGenerator.construct true false 10 false false
      = .ok (VideoGenerator.new true false 10) ∧
    ∃ msg, VideoGenerator.construct false false 10 true false
      = .error msg := by
  exact ⟨C9_credential_requirement.1 true false false false 10 rfl,
    C9_credential_requirement.2 true 10⟩

/-- C10: failure atomicity. Whenever `generate_scene_video` returns `none`,
the session state is exactly as before the call; and whenever the state
changed at all, the call succeeded and cost, record list and cache were all
mutated together, by exactly one commit. -/
theorem C10_failure_atomicity (md5hex : String → String) (env : GenEnv)
    (st : VideoGenerator) (scene : Scene) (image_path : Option String) :
    ((generate_scene_video md5hex env st scene image_path).result = none →
      (generate_scene_video md5hex env st scene image_path).state = st) ∧
    ((generate_scene_video md5hex env st scene image_path).state ≠ st →
      (generate_scene_video md5hex env st scene image_path).result
          = some (outputPathFor scene.id) ∧
      (generate_scene_video md5hex env st scene
          image_path).state.session_cost
          = st.session_cost + estimated_cost ∧
      (generate_scene_video md5hex env st scene
          image_path).state.generated_videos
          = st.generated_videos ++
            [⟨scene.id, outputPathFor scene.id, estimated_cost,
              fingerprintOf md5hex scene image_path⟩] ∧
      (generate_scene_video md5hex env st scene image_path).state.cache
          = (fingerprintOf md5hex scene image_path,
              outputPathFor scene.id) :: st.cache) := by
  unfold generate_scene_video
  split
  · exact ⟨fun _ => rfl, fun hne => absurd rfl hne⟩
  · split
    · exact ⟨fun _ => rfl, fun hne => absurd rfl hne⟩
    · split
      · exact ⟨fun _ => rfl, fun hne => absurd rfl hne⟩
      · exact ⟨fun _ => rfl, fun hne => absurd rfl hne⟩
      · split
        · exact ⟨fun _ => rfl, fun hne => absurd rfl hne⟩
        · exact ⟨fun h => by simp at h, fun _ => ⟨rfl, rfl, rfl, rfl⟩⟩

/-- C10 witness: a budget-refused call (budget 1.0 cannot cover the 5.0
estimate) leaves the fresh state untouched. -/
theorem C10_failure_atomicity_witness :
    (generate_scene_video mdStub noFileEnv (VideoGenerator.new true false 1)
      testScene none).state = VideoGenerator.new true false 1 := by
  refine (C10_failure_atomicity mdStub noFileEnv
    (VideoGenerator.new true false 1) testScene none).1 ?_
  norm_num [generate_scene_video, cache_hit, cacheLookup, call_fal_api,
    estimated_cost, DEFAULT_DURATION, ESTIMATED_COST_PER_SECOND,
    VideoGenerator.new, testScene]

end NeonVideoGen
